import Mathlib

/-!
Shallow embedding of the ShelfLife+ simulator's calculation core
(compatibility engine, transport recommendation, layout heuristic,
impact estimator, load-model mutations and planning parameters),
together with theorems checking the specification's claims about it.

JavaScript numbers are modelled as rationals (`ℚ`) where fractional
arithmetic occurs, and as integers (`ℤ`) for quantities and counts.
-/

namespace ShelfLife

/-- Ethylene production / sensitivity levels ('low' | 'medium' | 'high'). -/
inductive EthyleneLevel
  | low
  | medium
  | high
deriving DecidableEq, Repr

/-- `idealTemp: { min: number; max: number }` in degrees Celsius. -/
structure TempRange where
  min : ℚ
  max : ℚ
deriving DecidableEq, Repr

/-- The `Vegetable` interface from `VegetableInput.tsx` (a Load Model item). -/
structure Vegetable where
  id : String
  name : String
  quantity : ℤ
  ethyleneProduction : EthyleneLevel
  ethyleneSensitivity : EthyleneLevel
  idealTemp : TempRange
  shelfLife : ℚ
deriving DecidableEq, Repr

/-- The rectangle `position: { x, y, width, height }` of a load zone. -/
structure ZoneRect where
  x : ℕ
  y : ℕ
  width : ℕ
  height : ℕ
deriving DecidableEq, Repr

/-- The `LoadZone` interface from `TruckVisualizer.tsx`. -/
structure LoadZone where
  id : String
  vegetables : List Vegetable
  temperature : String
  position : ZoneRect
  color : String
deriving DecidableEq, Repr

/-- The grouping key `` `${veg.idealTemp.min}-${veg.idealTemp.max}` `` used by
`optimizeLoading`.  The JS template string is injective in the pair
`(min, max)` (number strings contain `-` only as a leading sign), so the key
is modelled as the pair itself. -/
def tempKey (v : Vegetable) : ℚ × ℚ :=
  (v.idealTemp.min, v.idealTemp.max)

/-- One step of the `vegetables.reduce` that builds `temperatureGroups`:
append `v` to the group with its key, or start a new group at the end.
(JS object keys of the form `"a-b"` are non-index keys, so `Object.entries`
yields them in insertion order; an association list models this exactly.) -/
def addToGroups : List ((ℚ × ℚ) × List Vegetable) → Vegetable →
    List ((ℚ × ℚ) × List Vegetable)
  | [], v => [(tempKey v, [v])]
  | g :: gs, v =>
      if g.1 = tempKey v then (g.1, g.2 ++ [v]) :: gs
      else g :: addToGroups gs v

/-- `temperatureGroups`: the Load Model grouped by exact temperature band,
bands in first-occurrence order. -/
def temperatureGroups (vs : List Vegetable) : List ((ℚ × ℚ) × List Vegetable) :=
  vs.foldl addToGroups []

/-- The string label `` `${tempRange}°C` `` for a band key. -/
def tempLabel (k : ℚ × ℚ) : String :=
  toString k.1 ++ "-" ++ toString k.2 ++ "°C"

/-- The body of the `Object.entries(temperatureGroups).forEach` loop in
`optimizeLoading`: given the zones built so far and the running `zoneIndex`,
emit the zone(s) for one temperature band. -/
def zonesForGroup (acc : List LoadZone × ℕ) (g : (ℚ × ℚ) × List Vegetable) :
    List LoadZone × ℕ :=
  let zones := acc.1
  let zoneIndex := acc.2
  let veggies := g.2
  let highEthyleneProducers :=
    veggies.filter (fun v => v.ethyleneProduction = EthyleneLevel.high)
  let ethyleneSensitive :=
    veggies.filter (fun v => v.ethyleneSensitivity = EthyleneLevel.high)
  let others := veggies.filter (fun v =>
    v.ethyleneProduction ≠ EthyleneLevel.high ∧
    v.ethyleneSensitivity ≠ EthyleneLevel.high)
  if 0 < highEthyleneProducers.length ∧ 0 < ethyleneSensitive.length then
    -- Zone for high ethylene producers
    let z1 : LoadZone :=
      { id := "zone-" ++ toString zoneIndex
        vegetables := highEthyleneProducers
        temperature := tempLabel g.1
        position := ⟨10, 10 + zones.length * 120, 180, 100⟩
        color := "bg-warning-orange/20 border-warning-orange/40" }
    let zones1 := zones ++ [z1]
    -- Zone for ethylene sensitive
    let z2 : LoadZone :=
      { id := "zone-" ++ toString (zoneIndex + 1)
        vegetables := ethyleneSensitive
        temperature := tempLabel g.1
        position := ⟨210, 10 + zones1.length * 120, 180, 100⟩
        color := "bg-fresh-green-light/40 border-fresh-green/40" }
    let zones2 := zones1 ++ [z2]
    -- Zone for others if any
    if 0 < others.length then
      let z3 : LoadZone :=
        { id := "zone-" ++ toString (zoneIndex + 2)
          vegetables := others
          temperature := tempLabel g.1
          position := ⟨410, 10 + zones2.length * 120, 180, 100⟩
          color := "bg-secondary/60 border-border" }
      (zones2 ++ [z3], zoneIndex + 3)
    else
      (zones2, zoneIndex + 2)
  else
    -- Single zone for all vegetables in this temperature group
    let z : LoadZone :=
      { id := "zone-" ++ toString zoneIndex
        vegetables := veggies
        temperature := tempLabel g.1
        position := ⟨10 + (zones.length % 3) * 200, 10 + (zones.length / 3) * 120,
                     180, 100⟩
        color := "bg-fresh-green-light/40 border-fresh-green/40" }
    (zones ++ [z], zoneIndex + 1)

/-- `optimizeLoading` from `TruckVisualizer.tsx`: the Layout Heuristic. -/
def optimizeLoading (vegetables : List Vegetable) : List LoadZone :=
  if vegetables.length = 0 then []
  else ((temperatureGroups vegetables).foldl zonesForGroup ([], 0)).1

/-- The `ethyleneConflict` check shared by the compatibility engine and the
aggregate status in the index page. -/
def ethyleneConflict (veg1 veg2 : Vegetable) : Bool :=
  (decide (veg1.ethyleneProduction = EthyleneLevel.high) &&
   decide (veg2.ethyleneSensitivity = EthyleneLevel.high)) ||
  (decide (veg2.ethyleneProduction = EthyleneLevel.high) &&
   decide (veg1.ethyleneSensitivity = EthyleneLevel.high))

/-- The nested `for i / for j = i+1` loop of `getCompatibilityStatus`:
`true` iff some pair at positions `i < j` has an ethylene conflict. -/
def anyEthylenePair : List Vegetable → Bool
  | [] => false
  | veg1 :: rest => rest.any (fun veg2 => ethyleneConflict veg1 veg2) || anyEthylenePair rest

/-- The `status` field of the aggregate badge returned by
`getCompatibilityStatus` on the index page. -/
inductive StatusKind
  | neutral
  | incompatible
  | compatible
deriving DecidableEq, Repr

/-- The `{ status, text }` record returned by `getCompatibilityStatus`. -/
structure CompatibilityStatus where
  status : StatusKind
  text : String
deriving DecidableEq, Repr

/-- `getCompatibilityStatus` from the index page (Compatibility Engine's
aggregate status). -/
def getCompatibilityStatus (vegetables : List Vegetable) : CompatibilityStatus :=
  if vegetables.length < 2 then ⟨StatusKind.neutral, "Add more vegetables"⟩
  else if anyEthylenePair vegetables then
    ⟨StatusKind.incompatible, "Compatibility issues detected"⟩
  else ⟨StatusKind.compatible, "All vegetables compatible"⟩

/-- The `type` field of a `TransportRecommendation`. -/
inductive RecommendationType
  | refrigerated
  | ventilated
  | controlled_atmosphere
deriving DecidableEq, Repr

/-- The `TransportRecommendation` interface from `CompatibilityAnalysis`. -/
structure TransportRecommendation where
  type : RecommendationType
  temperature : TempRange
  humidity : String
  ventilation : Bool
  separation : List String
deriving DecidableEq, Repr

/-- JS `Math.max(...xs)` over a non-empty spread list (the empty case is
never reached at the call sites, which guard on a non-empty Load Model). -/
def listMax : List ℚ → ℚ
  | [] => 0
  | x :: xs => xs.foldl max x

/-- JS `Math.min(...xs)` over a non-empty spread list. -/
def listMin : List ℚ → ℚ
  | [] => 0
  | x :: xs => xs.foldl min x

/-- `getTransportRecommendation` from `CompatibilityAnalysis`. -/
def getTransportRecommendation (vegetables : List Vegetable) :
    TransportRecommendation :=
  if vegetables.length = 0 then
    { type := RecommendationType.ventilated
      temperature := ⟨10, 15⟩
      humidity := "85-90%"
      ventilation := true
      separation := [] }
  else
    let minTemp := listMax (vegetables.map (fun v => v.idealTemp.min))
    let maxTemp := listMin (vegetables.map (fun v => v.idealTemp.max))
    let highEthyleneProducers :=
      vegetables.filter (fun v => v.ethyleneProduction = EthyleneLevel.high)
    let highEthyleneSensitive :=
      vegetables.filter (fun v => v.ethyleneSensitivity = EthyleneLevel.high)
    let needsSeparation :=
      0 < highEthyleneProducers.length ∧ 0 < highEthyleneSensitive.length
    { type := if minTemp ≤ 4 then RecommendationType.refrigerated
              else RecommendationType.controlled_atmosphere
      temperature := ⟨max 0 minTemp, if minTemp < maxTemp then maxTemp else minTemp + 2⟩
      humidity := "85-95%"
      ventilation := true
      separation :=
        if needsSeparation then
          ["Separate: " ++ String.intercalate ", "
             (highEthyleneProducers.map (fun v => v.name)),
           "From: " ++ String.intercalate ", "
             (highEthyleneSensitive.map (fun v => v.name))]
        else [] }

/-- `hasEthyleneIssues` inside `calculateImpact`: the item has an ethylene
conflict with some other item (distinguished by `id`). -/
def hasEthyleneIssues (vegetables : List Vegetable) (veg : Vegetable) : Bool :=
  vegetables.any fun other =>
    decide (other.id ≠ veg.id) &&
    ((decide (veg.ethyleneProduction = EthyleneLevel.high) &&
      decide (other.ethyleneSensitivity = EthyleneLevel.high)) ||
     (decide (other.ethyleneProduction = EthyleneLevel.high) &&
      decide (veg.ethyleneSensitivity = EthyleneLevel.high)))

/-- `hasTemperatureIssues` inside `calculateImpact`: the item's ideal range
fails to overlap some other item's range. -/
def hasTemperatureIssues (vegetables : List Vegetable) (veg : Vegetable) : Bool :=
  vegetables.any fun other =>
    decide (other.id ≠ veg.id) &&
    (decide (veg.idealTemp.max < other.idealTemp.min) ||
     decide (other.idealTemp.max < veg.idealTemp.min))

/-- The per-item `wasteMultiplier` of the baseline regime before the 0.70 cap:
base 25%, +20% for ethylene issues, +15% for temperature issues. -/
def wasteMultiplier (vegetables : List Vegetable) (veg : Vegetable) : ℚ :=
  0.25 + (if hasEthyleneIssues vegetables veg then 0.20 else 0)
       + (if hasTemperatureIssues vegetables veg then 0.15 else 0)

/-- `baselineWaste` inside `calculateImpact`: Σ quantity × min(multiplier, 0.70). -/
def baselineWaste (vegetables : List Vegetable) : ℚ :=
  vegetables.foldl
    (fun total veg => total + (veg.quantity : ℚ) * min (wasteMultiplier vegetables veg) 0.70)
    0

/-- `optimizedWaste` inside `calculateImpact`: Σ quantity × 0.10. -/
def optimizedWaste (vegetables : List Vegetable) : ℚ :=
  vegetables.foldl (fun total veg => total + (veg.quantity : ℚ) * 0.10) 0

/-- `getTotalQuantity` / the `totalQuantity` reduce: sum of item quantities. -/
def totalQuantity (vegetables : List Vegetable) : ℤ :=
  vegetables.foldl (fun sum veg => sum + veg.quantity) 0

/-- `avgShelfLife` inside `calculateImpact`: mean of the items' `shelfLife`. -/
def avgShelfLife (vegetables : List Vegetable) : ℚ :=
  vegetables.foldl (fun sum veg => sum + veg.shelfLife) 0 / (vegetables.length : ℚ)

/-- One regime's figures in the `ImpactCalculation` record. -/
structure RegimeFigures where
  wastePercentage : ℚ
  shelfLifeDays : ℚ
  estimatedLoss : ℚ
deriving DecidableEq, Repr

/-- The `savings` part of the `ImpactCalculation` record. -/
structure SavingsFigures where
  wasteReduction : ℚ
  shelfLifeExtension : ℚ
  costSavings : ℚ
deriving DecidableEq, Repr

/-- The `ImpactCalculation` interface from `ImpactMetrics`. -/
structure ImpactCalculation where
  withoutShelfLife : RegimeFigures
  withShelfLife : RegimeFigures
  savings : SavingsFigures
deriving DecidableEq, Repr

/-- `calculateImpact` from `ImpactMetrics`: the Impact Estimator. -/
def calculateImpact (vegetables : List Vegetable) (unitCost : ℚ) :
    ImpactCalculation :=
  if vegetables.length = 0 then
    { withoutShelfLife := ⟨0, 0, 0⟩
      withShelfLife := ⟨0, 0, 0⟩
      savings := ⟨0, 0, 0⟩ }
  else
    let baselineLoss := baselineWaste vegetables * unitCost
    let optimizedLoss := optimizedWaste vegetables * unitCost
    { withoutShelfLife :=
        { wastePercentage :=
            if 0 < totalQuantity vegetables then
              baselineWaste vegetables / (totalQuantity vegetables : ℚ) * 100
            else 0
          shelfLifeDays := max 1 (avgShelfLife vegetables * 0.7)
          estimatedLoss := baselineLoss }
      withShelfLife :=
        { wastePercentage :=
            if 0 < totalQuantity vegetables then
              optimizedWaste vegetables / (totalQuantity vegetables : ℚ) * 100
            else 0
          shelfLifeDays := avgShelfLife vegetables * 1.2
          estimatedLoss := optimizedLoss }
      savings :=
        { wasteReduction :=
            if 0 < totalQuantity vegetables then
              (baselineWaste vegetables - optimizedWaste vegetables) /
                (totalQuantity vegetables : ℚ) * 100
            else 0
          shelfLifeExtension := avgShelfLife vegetables * 1.2 - avgShelfLife vegetables * 0.7
          costSavings := baselineLoss - optimizedLoss } }

/-- A catalog record of `VEGETABLE_DATABASE` (a `Vegetable` without
`id` and `quantity`). -/
structure CatalogEntry where
  name : String
  ethyleneProduction : EthyleneLevel
  ethyleneSensitivity : EthyleneLevel
  idealTemp : TempRange
  shelfLife : ℚ
deriving DecidableEq, Repr

/-- `VEGETABLE_DATABASE` from `VegetableInput.tsx`. -/
def VEGETABLE_DATABASE : List (String × CatalogEntry) :=
  [("Carrots", ⟨"Carrots", .low, .medium, ⟨0, 2⟩, 21⟩),
   ("Cabbage", ⟨"Cabbage", .low, .medium, ⟨0, 2⟩, 20⟩),
   ("Broccoli", ⟨"Broccoli", .low, .high, ⟨0, 2⟩, 7⟩),
   ("Cauliflower", ⟨"Cauliflower", .low, .high, ⟨0, 2⟩, 10⟩),
   ("Lettuce", ⟨"Lettuce", .low, .high, ⟨0, 2⟩, 10⟩),
   ("Celery", ⟨"Celery", .low, .high, ⟨0, 2⟩, 14⟩),
   ("Chinese cabbage", ⟨"Chinese cabbage", .low, .medium, ⟨0, 2⟩, 14⟩),
   ("Eggplant", ⟨"Eggplant", .low, .high, ⟨10, 12⟩, 7⟩),
   ("Tomatoes", ⟨"Tomatoes", .high, .medium, ⟨12, 15⟩, 7⟩),
   ("Okra", ⟨"Okra", .low, .high, ⟨7, 10⟩, 5⟩),
   ("Ampalaya", ⟨"Ampalaya", .low, .medium, ⟨10, 12⟩, 5⟩),
   ("Sitaw", ⟨"Sitaw", .low, .high, ⟨7, 10⟩, 5⟩),
   ("Patola", ⟨"Patola", .low, .medium, ⟨10, 12⟩, 7⟩),
   ("Kalabasa", ⟨"Kalabasa", .low, .low, ⟨10, 12⟩, 30⟩),
   ("Pechay", ⟨"Pechay", .low, .medium, ⟨0, 2⟩, 7⟩),
   ("Potatoes", ⟨"Potatoes", .low, .low, ⟨4, 8⟩, 60⟩),
   ("Onions", ⟨"Onions", .low, .low, ⟨0, 4⟩, 90⟩),
   ("Peppers", ⟨"Peppers", .low, .medium, ⟨7, 10⟩, 14⟩)]

/-- `addVegetable` from `VegetableInput.tsx`, with the randomly generated
item id passed in as `newId`.  Returns the Load Model unchanged when the
selection is empty, already present by name, or not in the catalog;
otherwise appends the catalog data with quantity 1. -/
def addVegetable (vegetables : List Vegetable) (selectedVegetable : String)
    (newId : String) : List Vegetable :=
  if selectedVegetable = "" ∨ vegetables.any (fun v => v.name == selectedVegetable) then
    vegetables
  else
    match VEGETABLE_DATABASE.find? (fun e => e.1 == selectedVegetable) with
    | none => vegetables
    | some e =>
        vegetables ++
          [{ id := newId
             name := e.2.name
             quantity := 1
             ethyleneProduction := e.2.ethyleneProduction
             ethyleneSensitivity := e.2.ethyleneSensitivity
             idealTemp := e.2.idealTemp
             shelfLife := e.2.shelfLife }]

/-- `updateQuantity` from `VegetableInput.tsx`: clamp the target's new
quantity at 0 and drop items whose quantity is not positive. -/
def updateQuantity (vegetables : List Vegetable) (id : String) (change : ℤ) :
    List Vegetable :=
  (vegetables.map fun v =>
      if v.id = id then { v with quantity := max 0 (v.quantity + change) } else v).filter
    fun v => decide (0 < v.quantity)

/-- `TruckSize` from the index page. -/
inductive TruckSize
  | small
  | medium
  | large
deriving DecidableEq, Repr

/-- `capacityBySize` from the index page: unit capacity of one truck. -/
def capacityBySize : TruckSize → ℤ
  | TruckSize.small => 100
  | TruckSize.medium => 200
  | TruckSize.large => 400

/-- The auto-derived truck count
`Math.max(1, Math.ceil(getTotalQuantity() / capacityBySize[meta.truckSize]))`
used by `getTotalCapacity` (and by the Truck Quantity field and
`recommendedTruckCount`) on the index page. -/
def derivedTruckQuantity (size : TruckSize) (vegetables : List Vegetable) : ℤ :=
  max 1 ⌈(totalQuantity vegetables : ℚ) / (capacityBySize size : ℚ)⌉

/-- The planning-parameter fields of `ScenarioMeta` that feed
`getTotalCapacity` (the remaining fields are cosmetic here). -/
structure ScenarioMeta where
  truckSize : TruckSize
  truckQuantity : ℤ
  autoTruckQuantity : Bool
deriving DecidableEq, Repr

/-- `getTotalCapacity` from the index page. -/
def getTotalCapacity (meta : ScenarioMeta) (vegetables : List Vegetable) : ℤ :=
  capacityBySize meta.truckSize *
    (if meta.autoTruckQuantity then derivedTruckQuantity meta.truckSize vegetables
     else max 1 meta.truckQuantity)

/-! ### Helper lemmas -/

/-- All items stored in an association list of temperature groups, in order. -/
def groupItems (gs : List ((ℚ × ℚ) × List Vegetable)) : List Vegetable :=
  gs.flatMap Prod.snd

/-- An item is "dual-role" when it is both a high-ethylene producer and
high-ethylene-sensitive; such an item lands in two zones at once. -/
def dualRole (v : Vegetable) : Prop :=
  v.ethyleneProduction = EthyleneLevel.high ∧ v.ethyleneSensitivity = EthyleneLevel.high

instance (v : Vegetable) : Decidable (dualRole v) := by
  unfold dualRole; infer_instance

theorem groupItems_addToGroups (gs : List ((ℚ × ℚ) × List Vegetable)) (v : Vegetable) :
    (groupItems (addToGroups gs v)).Perm (groupItems gs ++ [v]) := by
  induction gs with
  | nil => simp [addToGroups, groupItems]
  | cons g gs ih =>
      by_cases hk : g.1 = tempKey v
      · simp only [addToGroups, if_pos hk, groupItems, List.flatMap_cons, List.append_assoc]
        exact List.Perm.append_left g.2 List.perm_append_comm
      · simp only [addToGroups, if_neg hk, groupItems, List.flatMap_cons, List.append_assoc]
        exact List.Perm.append_left g.2 ih

theorem groupItems_foldl (vs : List Vegetable) :
    ∀ gs, (groupItems (vs.foldl addToGroups gs)).Perm (groupItems gs ++ vs) := by
  induction vs with
  | nil => intro gs; simp
  | cons v vs ih =>
      intro gs
      have h1 := ih (addToGroups gs v)
      have h2 : (groupItems (addToGroups gs v) ++ vs).Perm ((groupItems gs ++ [v]) ++ vs) :=
        (groupItems_addToGroups gs v).append_right vs
      simpa using h1.trans h2

theorem groupItems_temperatureGroups (vs : List Vegetable) :
    (groupItems (temperatureGroups vs)).Perm vs := by
  simpa [groupItems, temperatureGroups] using groupItems_foldl vs []

/-- Splitting a band into producers / sensitive / others is lossless as long
as no item is dual-role. -/
theorem band_split_perm (l : List Vegetable)
    (h : ∀ v ∈ l, ¬ dualRole v) :
    (l.filter (fun v => decide (v.ethyleneProduction = EthyleneLevel.high)) ++
     (l.filter (fun v => decide (v.ethyleneSensitivity = EthyleneLevel.high)) ++
      l.filter (fun v => decide (v.ethyleneProduction ≠ EthyleneLevel.high ∧
        v.ethyleneSensitivity ≠ EthyleneLevel.high)))).Perm l := by
  set p : Vegetable → Bool := fun v => decide (v.ethyleneProduction = EthyleneLevel.high)
    with hp
  set s : Vegetable → Bool := fun v => decide (v.ethyleneSensitivity = EthyleneLevel.high)
    with hs
  have hS : l.filter s = (l.filter fun v => !p v).filter s := by
    rw [List.filter_filter]
    refine (List.filter_congr ?_).symm
    intro v hv
    by_cases hsv : v.ethyleneSensitivity = EthyleneLevel.high
    · have hpv : ¬ v.ethyleneProduction = EthyleneLevel.high := fun hpv =>
        h v hv ⟨hpv, hsv⟩
      simp [hp, hs, hsv, hpv]
    · simp [hp, hs, hsv]
  have hO : l.filter (fun v => decide (v.ethyleneProduction ≠ EthyleneLevel.high ∧
      v.ethyleneSensitivity ≠ EthyleneLevel.high)) =
      (l.filter fun v => !p v).filter (fun v => !s v) := by
    rw [List.filter_filter]
    refine List.filter_congr ?_
    intro v _
    by_cases h1 : v.ethyleneProduction = EthyleneLevel.high <;>
      by_cases h2 : v.ethyleneSensitivity = EthyleneLevel.high <;>
        simp [hp, hs, h1, h2]
  rw [hS, hO]
  refine List.Perm.trans (List.Perm.append_left _ (List.filter_append_perm s _)) ?_
  exact List.filter_append_perm p l

/-- The members of the zones that `zonesForGroup` emits for one band, in
emission order (producers, sensitive, others — or the whole band). -/
def bandZoneVegs (l : List Vegetable) : List Vegetable :=
  let p := l.filter (fun v => decide (v.ethyleneProduction = EthyleneLevel.high))
  let s := l.filter (fun v => decide (v.ethyleneSensitivity = EthyleneLevel.high))
  let o := l.filter (fun v => decide (v.ethyleneProduction ≠ EthyleneLevel.high ∧
    v.ethyleneSensitivity ≠ EthyleneLevel.high))
  if 0 < p.length ∧ 0 < s.length then
    p ++ s ++ (if 0 < o.length then o else []) else l

/-- `zonesForGroup` appends its new zones after the accumulator, and the new
zones' members are `bandZoneVegs` of the band. -/
theorem zonesForGroup_flatMap (acc : List LoadZone × ℕ)
    (g : (ℚ × ℚ) × List Vegetable) :
    ((zonesForGroup acc g).1).flatMap LoadZone.vegetables =
      acc.1.flatMap LoadZone.vegetables ++ bandZoneVegs g.2 := by
  simp only [zonesForGroup, bandZoneVegs]
  split_ifs with hsplit hoth <;> simp [List.flatMap_append, List.append_assoc]

/-- Absent dual-role items, one band's zone members are a permutation of the
band. -/
theorem bandZoneVegs_perm (l : List Vegetable) (h : ∀ v ∈ l, ¬ dualRole v) :
    (bandZoneVegs l).Perm l := by
  simp only [bandZoneVegs]
  split_ifs with hsplit hoth
  · simpa [List.append_assoc] using band_split_perm l h
  · have hnil : l.filter (fun v => decide (v.ethyleneProduction ≠ EthyleneLevel.high ∧
        v.ethyleneSensitivity ≠ EthyleneLevel.high)) = [] :=
      List.eq_nil_of_length_eq_zero (Nat.eq_zero_of_not_pos hoth)
    have hsp := band_split_perm l h
    rw [hnil] at hsp
    simpa [List.append_assoc] using hsp
  · exact List.Perm.refl l

theorem foldl_zonesForGroup (gs : List ((ℚ × ℚ) × List Vegetable)) :
    ∀ acc : List LoadZone × ℕ, (∀ v ∈ groupItems gs, ¬ dualRole v) →
      (((gs.foldl zonesForGroup acc).1).flatMap LoadZone.vegetables).Perm
        (acc.1.flatMap LoadZone.vegetables ++ groupItems gs) := by
  induction gs with
  | nil => intro acc _; simp [groupItems]
  | cons g gs ih =>
      intro acc h
      have hg : ∀ v ∈ g.2, ¬ dualRole v := fun v hv =>
        h v (by simp [groupItems, hv])
      have hgs : ∀ v ∈ groupItems gs, ¬ dualRole v := fun v hv =>
        h v (by simp [groupItems] at hv ⊢; exact Or.inr hv)
      rw [List.foldl_cons]
      refine (ih (zonesForGroup acc g) hgs).trans ?_
      rw [zonesForGroup_flatMap, List.append_assoc]
      refine List.Perm.append_left _ ?_
      have : (bandZoneVegs g.2 ++ groupItems gs).Perm (g.2 ++ groupItems gs) :=
        (bandZoneVegs_perm g.2 hg).append_right _
      simpa [groupItems] using this

theorem foldl_max_mem (xs : List ℚ) : ∀ x : ℚ, xs.foldl max x ∈ x :: xs := by
  induction xs with
  | nil => intro x; simp
  | cons y ys ih =>
      intro x
      rw [List.foldl_cons]
      rcases List.mem_cons.mp (ih (max x y)) with h | h
      · rcases max_choice x y with hm | hm
        · exact List.mem_cons.mpr (Or.inl (h.trans hm))
        · exact List.mem_cons.mpr (Or.inr (List.mem_cons.mpr (Or.inl (h.trans hm))))
      · exact List.mem_cons.mpr (Or.inr (List.mem_cons.mpr (Or.inr h)))

theorem le_foldl_max (xs : List ℚ) : ∀ x a : ℚ, a ∈ x :: xs → a ≤ xs.foldl max x := by
  induction xs with
  | nil => intro x a ha; simp at ha; simp [ha]
  | cons y ys ih =>
      intro x a ha
      rw [List.foldl_cons]
      rcases List.mem_cons.mp ha with h | h
      · exact h ▸ (le_max_left x y).trans (ih (max x y) _ (List.mem_cons_self _ _))
      · rcases List.mem_cons.mp h with h' | h'
        · exact h' ▸ (le_max_right x y).trans (ih (max x y) _ (List.mem_cons_self _ _))
        · exact ih (max x y) a (List.mem_cons_of_mem _ h')

/-- `listMax` agrees with `List.maximum` on non-empty lists. -/
theorem listMax_eq_maximum (xs : List ℚ) (h : xs ≠ []) :
    xs.maximum = (listMax xs : WithBot ℚ) := by
  cases xs with
  | nil => exact absurd rfl h
  | cons x l =>
      rw [List.maximum_eq_coe_iff]
      exact ⟨foldl_max_mem l x, fun a ha => le_foldl_max l x a ha⟩

theorem foldl_min_mem (xs : List ℚ) : ∀ x : ℚ, xs.foldl min x ∈ x :: xs := by
  induction xs with
  | nil => intro x; simp
  | cons y ys ih =>
      intro x
      rw [List.foldl_cons]
      rcases List.mem_cons.mp (ih (min x y)) with h | h
      · rcases min_choice x y with hm | hm
        · exact List.mem_cons.mpr (Or.inl (h.trans hm))
        · exact List.mem_cons.mpr (Or.inr (List.mem_cons.mpr (Or.inl (h.trans hm))))
      · exact List.mem_cons.mpr (Or.inr (List.mem_cons.mpr (Or.inr h)))

theorem foldl_min_le (xs : List ℚ) : ∀ x a : ℚ, a ∈ x :: xs → xs.foldl min x ≤ a := by
  induction xs with
  | nil => intro x a ha; simp at ha; simp [ha]
  | cons y ys ih =>
      intro x a ha
      rw [List.foldl_cons]
      rcases List.mem_cons.mp ha with h | h
      · exact h ▸ (ih (min x y) _ (List.mem_cons_self _ _)).trans (min_le_left x y)
      · rcases List.mem_cons.mp h with h' | h'
        · exact h' ▸ (ih (min x y) _ (List.mem_cons_self _ _)).trans (min_le_right x y)
        · exact ih (min x y) a (List.mem_cons_of_mem _ h')

/-- `listMin` agrees with `List.minimum` on non-empty lists. -/
theorem listMin_eq_minimum (xs : List ℚ) (h : xs ≠ []) :
    xs.minimum = (listMin xs : WithBot ℚ) := by
  cases xs with
  | nil => exact absurd rfl h
  | cons x l =>
      exact List.minimum_eq_coe_iff.mpr
        ⟨foldl_min_mem l x, fun a ha => foldl_min_le l x a ha⟩

/-- The accumulating `reduce` sums in the impact estimator are list sums. -/
theorem foldl_add_map {α M : Type*} [AddCommMonoid M] (f : α → M) (a : M)
    (l : List α) : l.foldl (fun t v => t + f v) a = a + (l.map f).sum := by
  induction l generalizing a with
  | nil => simp
  | cons x xs ih => simp [ih, add_assoc]

/-- The nested pair loop finds an ethylene conflict iff some two-element
sublist (an unordered pair of distinct positions) conflicts. -/
theorem anyEthylenePair_iff (vs : List Vegetable) :
    anyEthylenePair vs = true ↔
      ∃ a b, [a, b].Sublist vs ∧ ethyleneConflict a b = true := by
  induction vs with
  | nil =>
      simp only [anyEthylenePair]
      constructor
      · intro h; cases h
      · rintro ⟨a, b, hs, _⟩
        exact absurd (List.Sublist.length_le hs) (by simp)
  | cons v rest ih =>
      simp only [anyEthylenePair, Bool.or_eq_true, List.any_eq_true]
      constructor
      · rintro (⟨b, hb, hconf⟩ | h)
        · exact ⟨v, b, List.cons_sublist_cons.mpr (List.singleton_sublist.mpr hb), hconf⟩
        · obtain ⟨a, b, hs, hconf⟩ := ih.mp h
          exact ⟨a, b, hs.cons v, hconf⟩
      · rintro ⟨a, b, hs, hconf⟩
        rcases List.sublist_cons_iff.mp hs with h | ⟨r, hr, hsub⟩
        · exact Or.inr (ih.mpr ⟨a, b, h, hconf⟩)
        · cases hr
          exact Or.inl ⟨b, List.singleton_sublist.mp hsub, by simpa using hconf⟩

/-! ### Claim theorems -/

/-- C1 (amended): for every non-empty Load Model in which no item is both a
high-ethylene producer and high-ethylene-sensitive, the zones produced by
`optimizeLoading` form a partition of the model's items: their concatenated
item lists are a permutation of the Load Model (no item duplicated or
dropped), and when the model's items are distinct no item occurs twice
across zones — in particular the producer zone and the sensitive zone of a
band are disjoint. -/
theorem optimizeLoading_partition (vs : List Vegetable) (hne : vs ≠ [])
    (h : ∀ v ∈ vs, ¬ dualRole v) :
    ((optimizeLoading vs).flatMap LoadZone.vegetables).Perm vs ∧
    (vs.Nodup → ((optimizeLoading vs).flatMap LoadZone.vegetables).Nodup) := by
  have hlen : ¬ vs.length = 0 := by simpa [List.length_eq_zero] using hne
  have hdual : ∀ v ∈ groupItems (temperatureGroups vs), ¬ dualRole v := by
    intro v hv
    exact h v ((groupItems_temperatureGroups vs).mem_iff.mp hv)
  have hfold := foldl_zonesForGroup (temperatureGroups vs) ([], 0) hdual
  have hperm : ((optimizeLoading vs).flatMap LoadZone.vegetables).Perm vs := by
    rw [optimizeLoading, if_neg hlen]
    exact hfold.trans (groupItems_temperatureGroups vs)
  exact ⟨hperm, fun hnd => hperm.symm.nodup hnd⟩

/-- C1 counterexample: a single item that is both a high-ethylene producer
and high-ethylene-sensitive (such as a banana) is placed into both the
producer zone and the sensitive zone, so the zone item-sets are not a
partition of the Load Model. -/
theorem optimizeLoading_dual_item_duplicated :
    ¬ ((optimizeLoading
          [⟨"b1", "Bananas", 1, EthyleneLevel.high, EthyleneLevel.high, ⟨13, 15⟩, 5⟩]).flatMap
        LoadZone.vegetables).Perm
      [⟨"b1", "Bananas", 1, EthyleneLevel.high, EthyleneLevel.high, ⟨13, 15⟩, 5⟩] := by
  decide

/-- C1 witness: the partition property at a concrete two-item Load Model. -/
theorem optimizeLoading_partition_witness :
    (([⟨"t1", "Tomatoes", 2, EthyleneLevel.high, EthyleneLevel.medium, ⟨12, 15⟩, 7⟩,
       ⟨"l1", "Lettuce", 3, EthyleneLevel.low, EthyleneLevel.high, ⟨0, 2⟩, 10⟩] :
        List Vegetable) ≠ []) ∧
    ((optimizeLoading
        [⟨"t1", "Tomatoes", 2, EthyleneLevel.high, EthyleneLevel.medium, ⟨12, 15⟩, 7⟩,
         ⟨"l1", "Lettuce", 3, EthyleneLevel.low, EthyleneLevel.high, ⟨0, 2⟩, 10⟩]).flatMap
      LoadZone.vegetables).Perm
      [⟨"t1", "Tomatoes", 2, EthyleneLevel.high, EthyleneLevel.medium, ⟨12, 15⟩, 7⟩,
       ⟨"l1", "Lettuce", 3, EthyleneLevel.low, EthyleneLevel.high, ⟨0, 2⟩, 10⟩] :=
  ⟨by decide,
   (optimizeLoading_partition
      [⟨"t1", "Tomatoes", 2, EthyleneLevel.high, EthyleneLevel.medium, ⟨12, 15⟩, 7⟩,
       ⟨"l1", "Lettuce", 3, EthyleneLevel.low, EthyleneLevel.high, ⟨0, 2⟩, 10⟩]
      (by decide) (by decide)).1⟩

/-- C2 (amended): for every non-empty Load Model, `getTransportRecommendation`
returns the envelope whose minimum is `max 0 minTemp` (clamped at 0 °C) with
`minTemp` the maximum over items of `idealTemp.min`, and whose maximum is the
minimum over items of `idealTemp.max` when that is strictly greater than
`minTemp`, and `minTemp + 2` otherwise — i.e. the widening also fires when
the two coincide, not only when the range is strictly inverted. -/
theorem getTransportRecommendation_envelope (vs : List Vegetable)
    (hne : vs ≠ []) (mn mx : ℚ)
    (hmn : (vs.map fun v => v.idealTemp.min).maximum = (mn : WithBot ℚ))
    (hmx : (vs.map fun v => v.idealTemp.max).minimum = (mx : WithBot ℚ)) :
    (getTransportRecommendation vs).temperature =
      ⟨max 0 mn, if mn < mx then mx else mn + 2⟩ := by
  have hlen : ¬ vs.length = 0 := by simpa [List.length_eq_zero] using hne
  have hmap1 : (vs.map fun v => v.idealTemp.min) ≠ [] := by
    simpa [List.map_eq_nil_iff] using hne
  have hmap2 : (vs.map fun v => v.idealTemp.max) ≠ [] := by
    simpa [List.map_eq_nil_iff] using hne
  have e1 : mn = listMax (vs.map fun v => v.idealTemp.min) := by
    have hx := listMax_eq_maximum _ hmap1
    rw [hmn] at hx
    exact WithBot.coe_inj.mp hx
  have e2 : mx = listMin (vs.map fun v => v.idealTemp.max) := by
    have hx := listMin_eq_minimum _ hmap2
    rw [hmx] at hx
    exact WithBot.coe_inj.mp hx
  subst e1 e2
  simp [getTransportRecommendation, hne]

/-- C2 counterexample: for a single item with ideal range −3…−3 °C, the claim
as stated predicts the envelope −3…−3 °C (the range is not strictly
inverted), but the code clamps the minimum to 0 °C and replaces the maximum
by `minTemp + 2 = −1` because the widening condition is `maxTemp ≤ minTemp`,
not `maxTemp < minTemp`. -/
theorem getTransportRecommendation_envelope_cex :
    ((([⟨"n1", "Coldveg", 1, EthyleneLevel.low, EthyleneLevel.low, ⟨-3, -3⟩, 5⟩] :
        List Vegetable).map
        fun v => v.idealTemp.min).maximum = ((-3 : ℚ) : WithBot ℚ)) ∧
    ((([⟨"n1", "Coldveg", 1, EthyleneLevel.low, EthyleneLevel.low, ⟨-3, -3⟩, 5⟩] :
        List Vegetable).map
        fun v => v.idealTemp.max).minimum = ((-3 : ℚ) : WithBot ℚ)) ∧
    ¬ ((-3 : ℚ) < (-3 : ℚ)) ∧
    (getTransportRecommendation
        [⟨"n1", "Coldveg", 1, EthyleneLevel.low, EthyleneLevel.low, ⟨-3, -3⟩, 5⟩]).temperature ≠
      ⟨-3, -3⟩ := by
  refine ⟨by decide, by decide, by decide, by decide⟩

/-- C2 witness: the amended envelope at a concrete one-item Load Model. -/
theorem getTransportRecommendation_envelope_witness :
    (getTransportRecommendation
        [⟨"c1", "Carrots", 1, EthyleneLevel.low, EthyleneLevel.medium, ⟨0, 2⟩, 21⟩]).temperature =
      ⟨max 0 0, if (0 : ℚ) < 2 then 2 else 0 + 2⟩ :=
  getTransportRecommendation_envelope
    [⟨"c1", "Carrots", 1, EthyleneLevel.low, EthyleneLevel.medium, ⟨0, 2⟩, 21⟩]
    (by decide) 0 2 (by decide) (by decide)

/-- C9: for every non-empty Load Model, the recommendation's temperature
minimum equals `max 0` of the maximum over items of `idealTemp.min`, so it is
never negative. -/
theorem getTransportRecommendation_min_clamp (vs : List Vegetable)
    (hne : vs ≠ []) (mn : ℚ)
    (hmn : (vs.map fun v => v.idealTemp.min).maximum = (mn : WithBot ℚ)) :
    (getTransportRecommendation vs).temperature.min = max 0 mn ∧
    0 ≤ (getTransportRecommendation vs).temperature.min := by
  have hlen : ¬ vs.length = 0 := by simpa [List.length_eq_zero] using hne
  have hmap1 : (vs.map fun v => v.idealTemp.min) ≠ [] := by
    simpa [List.map_eq_nil_iff] using hne
  have e1 : mn = listMax (vs.map fun v => v.idealTemp.min) := by
    have hx := listMax_eq_maximum _ hmap1
    rw [hmn] at hx
    exact WithBot.coe_inj.mp hx
  subst e1
  constructor
  · simp [getTransportRecommendation, hne]
  · have : (getTransportRecommendation vs).temperature.min =
        max 0 (listMax (vs.map fun v => v.idealTemp.min)) := by
      simp [getTransportRecommendation, hne]
    rw [this]
    exact le_max_left 0 _

/-- C9 witness: a Load Model whose only item has a sub-zero ideal range still
gets a non-negative recommended minimum. -/
theorem getTransportRecommendation_min_clamp_witness :
    (getTransportRecommendation
        [⟨"n2", "Frostveg", 1, EthyleneLevel.low, EthyleneLevel.low, ⟨-5, -4⟩, 5⟩]).temperature.min =
      max 0 (-5) ∧
    0 ≤ (getTransportRecommendation
        [⟨"n2", "Frostveg", 1, EthyleneLevel.low, EthyleneLevel.low, ⟨-5, -4⟩, 5⟩]).temperature.min :=
  getTransportRecommendation_min_clamp
    [⟨"n2", "Frostveg", 1, EthyleneLevel.low, EthyleneLevel.low, ⟨-5, -4⟩, 5⟩]
    (by decide) (-5) (by decide)

/-- C3 (amended): for every non-empty Load Model the reported shelf-life
saving is the optimized figure (1.2 × average) minus the unfloored baseline
0.7 × average — not the difference of the two reported figures — while the
reported baseline figure itself is `max 1 (0.7 × average)`. -/
theorem calculateImpact_shelfLife_figures (vs : List Vegetable)
    (hne : vs ≠ []) (unitCost : ℚ) :
    (calculateImpact vs unitCost).savings.shelfLifeExtension =
      (calculateImpact vs unitCost).withShelfLife.shelfLifeDays -
        avgShelfLife vs * 0.7 ∧
    (calculateImpact vs unitCost).withoutShelfLife.shelfLifeDays =
      max 1 (avgShelfLife vs * 0.7) := by
  constructor <;> simp [calculateImpact, hne]

/-- C3 counterexample: for a one-item Load Model with `shelfLife = 1`, the
reported saving is 1.2 − 0.7 = 0.5 days, while the reported baseline figure
minus the reported optimized figure is `max 1 0.7 − 1.2 = −0.2`; the two
differ, so the saving is not computed from the floored baseline figure. -/
theorem calculateImpact_shelfLife_saving_cex :
    (calculateImpact
        [⟨"k1", "Shortveg", 1, EthyleneLevel.low, EthyleneLevel.low, ⟨0, 2⟩, 1⟩]
        100).savings.shelfLifeExtension ≠
      (calculateImpact
          [⟨"k1", "Shortveg", 1, EthyleneLevel.low, EthyleneLevel.low, ⟨0, 2⟩, 1⟩]
          100).withoutShelfLife.shelfLifeDays -
        (calculateImpact
            [⟨"k1", "Shortveg", 1, EthyleneLevel.low, EthyleneLevel.low, ⟨0, 2⟩, 1⟩]
            100).withShelfLife.shelfLifeDays := by
  have havg : avgShelfLife
      [⟨"k1", "Shortveg", 1, EthyleneLevel.low, EthyleneLevel.low, ⟨0, 2⟩, 1⟩] = 1 := by
    norm_num [avgShelfLife]
  simp only [calculateImpact, havg, List.length_cons, List.length_nil]
  norm_num

/-- C3 witness: the amended relation at a concrete one-item Load Model. -/
theorem calculateImpact_shelfLife_figures_witness :
    (calculateImpact
        [⟨"t2", "Tomatoes", 5, EthyleneLevel.high, EthyleneLevel.medium, ⟨12, 15⟩, 7⟩]
        100).savings.shelfLifeExtension =
      (calculateImpact
          [⟨"t2", "Tomatoes", 5, EthyleneLevel.high, EthyleneLevel.medium, ⟨12, 15⟩, 7⟩]
          100).withShelfLife.shelfLifeDays -
        avgShelfLife
          [⟨"t2", "Tomatoes", 5, EthyleneLevel.high, EthyleneLevel.medium, ⟨12, 15⟩, 7⟩] * 0.7 :=
  (calculateImpact_shelfLife_figures
      [⟨"t2", "Tomatoes", 5, EthyleneLevel.high, EthyleneLevel.medium, ⟨12, 15⟩, 7⟩]
      (by decide) 100).1

/-- C8: on the empty Load Model, the impact estimator returns the all-zero
record, the transport recommendation returns the fixed default envelope
(10–15 °C, ventilated, no separation), and the layout heuristic returns the
empty zone sequence. -/
theorem empty_load_defaults (unitCost : ℚ) :
    calculateImpact [] unitCost = ⟨⟨0, 0, 0⟩, ⟨0, 0, 0⟩, ⟨0, 0, 0⟩⟩ ∧
    getTransportRecommendation [] =
      ⟨RecommendationType.ventilated, ⟨10, 15⟩, "85-90%", true, []⟩ ∧
    optimizeLoading [] = [] :=
  ⟨rfl, rfl, rfl⟩

/-- C8 witness: the empty-model defaults at the concrete unit price 100
(the value the index page passes to the impact estimator). -/
theorem empty_load_defaults_witness :
    calculateImpact [] 100 = ⟨⟨0, 0, 0⟩, ⟨0, 0, 0⟩, ⟨0, 0, 0⟩⟩ :=
  (empty_load_defaults 100).1

/-- C4: the aggregate compatibility status is never "incompatible" for 0 or
1 items, and for 2 or more items it is "incompatible" exactly when some
unordered pair of items (a two-element sublist) has an ethylene conflict;
temperature-only conflicts never make the aggregate incompatible. -/
theorem getCompatibilityStatus_aggregate (vs : List Vegetable) :
    (vs.length ≤ 1 → (getCompatibilityStatus vs).status ≠ StatusKind.incompatible) ∧
    (2 ≤ vs.length →
      ((getCompatibilityStatus vs).status = StatusKind.incompatible ↔
        ∃ a b, [a, b].Sublist vs ∧ ethyleneConflict a b = true)) := by
  constructor
  · intro hle
    have hlt : vs.length < 2 := by omega
    rw [getCompatibilityStatus, if_pos hlt]
    intro hcontra
    cases hcontra
  · intro hge
    have hlt : ¬ vs.length < 2 := by omega
    rw [getCompatibilityStatus, if_neg hlt]
    by_cases hp : anyEthylenePair vs = true
    · rw [if_pos hp]
      exact ⟨fun _ => (anyEthylenePair_iff vs).mp hp, fun _ => rfl⟩
    · rw [if_neg hp]
      constructor
      · intro hcontra
        cases hcontra
      · intro hex
        exact absurd ((anyEthylenePair_iff vs).mpr hex) hp

/-- C4 witness: the characterization at a high-producer / high-sensitive
pair (status incompatible) and at a singleton (status not incompatible). -/
theorem getCompatibilityStatus_aggregate_witness :
    (getCompatibilityStatus
        [⟨"t1", "Tomatoes", 2, EthyleneLevel.high, EthyleneLevel.medium, ⟨12, 15⟩, 7⟩,
         ⟨"l1", "Lettuce", 3, EthyleneLevel.low, EthyleneLevel.high, ⟨0, 2⟩, 10⟩]).status =
      StatusKind.incompatible ∧
    (getCompatibilityStatus
        [⟨"c1", "Carrots", 1, EthyleneLevel.low, EthyleneLevel.medium, ⟨0, 2⟩, 21⟩]).status ≠
      StatusKind.incompatible :=
  ⟨((getCompatibilityStatus_aggregate
      [⟨"t1", "Tomatoes", 2, EthyleneLevel.high, EthyleneLevel.medium, ⟨12, 15⟩, 7⟩,
       ⟨"l1", "Lettuce", 3, EthyleneLevel.low, EthyleneLevel.high, ⟨0, 2⟩, 10⟩]).2
      (by decide)).mpr
    ⟨⟨"t1", "Tomatoes", 2, EthyleneLevel.high, EthyleneLevel.medium, ⟨12, 15⟩, 7⟩,
     ⟨"l1", "Lettuce", 3, EthyleneLevel.low, EthyleneLevel.high, ⟨0, 2⟩, 10⟩,
     List.Sublist.refl _, by decide⟩,
   (getCompatibilityStatus_aggregate
      [⟨"c1", "Carrots", 1, EthyleneLevel.low, EthyleneLevel.medium, ⟨0, 2⟩, 21⟩]).1
      (by decide)⟩

/-- The impact estimator's accumulating sums, rewritten as list sums. -/
theorem optimizedWaste_eq_sum (vs : List Vegetable) :
    optimizedWaste vs = (vs.map fun v => (v.quantity : ℚ) * 0.10).sum := by
  simpa using foldl_add_map (fun v : Vegetable => (v.quantity : ℚ) * 0.10) 0 vs

theorem baselineWaste_eq_sum (vs : List Vegetable) :
    baselineWaste vs =
      (vs.map fun v => (v.quantity : ℚ) * min (wasteMultiplier vs v) 0.70).sum := by
  simpa using
    foldl_add_map (fun v : Vegetable => (v.quantity : ℚ) * min (wasteMultiplier vs v) 0.70) 0 vs

/-- C5: with all quantities non-negative, the optimized waste units never
exceed the baseline waste units: every capped baseline multiplier is at
least 0.25, hence at least the optimized 0.10. -/
theorem optimizedWaste_le_baselineWaste (vs : List Vegetable) (hne : vs ≠ [])
    (hq : ∀ v ∈ vs, 0 ≤ v.quantity) :
    optimizedWaste vs ≤ baselineWaste vs := by
  rw [optimizedWaste_eq_sum, baselineWaste_eq_sum]
  refine List.sum_le_sum ?_
  intro v hv
  have h1 : (0.10 : ℚ) ≤ min (wasteMultiplier vs v) 0.70 := by
    refine le_min ?_ (by norm_num)
    rw [wasteMultiplier]
    split_ifs <;> norm_num
  have hq' : (0 : ℚ) ≤ (v.quantity : ℚ) := by exact_mod_cast hq v hv
  exact mul_le_mul_of_nonneg_left h1 hq'

/-- C5 witness: the inequality at a concrete two-item Load Model with an
ethylene conflict. -/
theorem optimizedWaste_le_baselineWaste_witness :
    optimizedWaste
        [⟨"t1", "Tomatoes", 2, EthyleneLevel.high, EthyleneLevel.medium, ⟨12, 15⟩, 7⟩,
         ⟨"l1", "Lettuce", 3, EthyleneLevel.low, EthyleneLevel.high, ⟨0, 2⟩, 10⟩] ≤
      baselineWaste
        [⟨"t1", "Tomatoes", 2, EthyleneLevel.high, EthyleneLevel.medium, ⟨12, 15⟩, 7⟩,
         ⟨"l1", "Lettuce", 3, EthyleneLevel.low, EthyleneLevel.high, ⟨0, 2⟩, 10⟩] :=
  optimizedWaste_le_baselineWaste
    [⟨"t1", "Tomatoes", 2, EthyleneLevel.high, EthyleneLevel.medium, ⟨12, 15⟩, 7⟩,
     ⟨"l1", "Lettuce", 3, EthyleneLevel.low, EthyleneLevel.high, ⟨0, 2⟩, 10⟩]
    (by decide) (by decide)

/-- C6: starting from a Load Model whose items all have quantity ≥ 1, both
public mutations keep every quantity ≥ 1: `addVegetable` inserts with
quantity 1, and `updateQuantity` with change ±1 removes (rather than keeps)
any item whose quantity would drop to 0. -/
theorem mutations_preserve_quantity_invariant (vs : List Vegetable)
    (h : ∀ v ∈ vs, 1 ≤ v.quantity) (sel newId id : String) (change : ℤ)
    (hchange : change = 1 ∨ change = -1) :
    (∀ v ∈ addVegetable vs sel newId, 1 ≤ v.quantity) ∧
    (∀ v ∈ updateQuantity vs id change, 1 ≤ v.quantity) := by
  constructor
  · intro v hv
    rw [addVegetable] at hv
    split_ifs at hv with hguard
    · exact h v hv
    · cases hfind : VEGETABLE_DATABASE.find? (fun e => e.1 == sel) with
      | none =>
          rw [hfind] at hv
          exact h v hv
      | some e =>
          rw [hfind] at hv
          rcases List.mem_append.mp hv with hv' | hv'
          · exact h v hv'
          · rcases List.mem_cons.mp hv' with rfl | hv''
            · exact le_refl 1
            · cases hv''
  · intro v hv
    rw [updateQuantity] at hv
    have hmem := List.mem_filter.mp hv
    have hq : 0 < v.quantity := by simpa using hmem.2
    omega

/-- C6 witness: both mutations at a concrete Load Model (a decrement of a
quantity-1 item removes it, leaving only quantity-≥1 items). -/
theorem mutations_preserve_quantity_invariant_witness :
    (∀ v ∈ addVegetable
        [⟨"c1", "Carrots", 1, EthyleneLevel.low, EthyleneLevel.medium, ⟨0, 2⟩, 21⟩]
        "Cabbage" "x1", 1 ≤ v.quantity) ∧
    (∀ v ∈ updateQuantity
        [⟨"c1", "Carrots", 1, EthyleneLevel.low, EthyleneLevel.medium, ⟨0, 2⟩, 21⟩]
        "c1" (-1), 1 ≤ v.quantity) :=
  mutations_preserve_quantity_invariant
    [⟨"c1", "Carrots", 1, EthyleneLevel.low, EthyleneLevel.medium, ⟨0, 2⟩, 21⟩]
    (by decide) "Cabbage" "x1" "c1" (-1) (Or.inr rfl)

/-- The fixed per-truck unit capacity is positive for every size. -/
theorem capacityBySize_pos (size : TruckSize) : 0 < capacityBySize size := by
  cases size <;> norm_num [capacityBySize]

/-- C7 (amended): with `autoTruckQuantity` set, the total capacity is the
unit capacity times the derived truck count `max 1 ⌈totalQuantity/capacity⌉`,
which is the least count that is at least 1 and whose capacity covers the
load; on the empty Load Model the derived count is 1, not
`⌈0/capacity⌉ = 0`. -/
theorem getTotalCapacity_auto_least (meta : ScenarioMeta) (vs : List Vegetable)
    (hauto : meta.autoTruckQuantity = true) :
    getTotalCapacity meta vs =
      capacityBySize meta.truckSize * derivedTruckQuantity meta.truckSize vs ∧
    1 ≤ derivedTruckQuantity meta.truckSize vs ∧
    totalQuantity vs ≤
      capacityBySize meta.truckSize * derivedTruckQuantity meta.truckSize vs ∧
    ∀ q : ℤ, 1 ≤ q → totalQuantity vs ≤ capacityBySize meta.truckSize * q →
      derivedTruckQuantity meta.truckSize vs ≤ q := by
  have hc : (0 : ℤ) < capacityBySize meta.truckSize := capacityBySize_pos _
  have hcq : (0 : ℚ) < (capacityBySize meta.truckSize : ℚ) := by exact_mod_cast hc
  refine ⟨by rw [getTotalCapacity, if_pos hauto], le_max_left 1 _, ?_, ?_⟩
  · have hdiv : ((totalQuantity vs : ℚ) / (capacityBySize meta.truckSize : ℚ)) ≤
        (⌈(totalQuantity vs : ℚ) / (capacityBySize meta.truckSize : ℚ)⌉ : ℚ) :=
      Int.le_ceil _
    have h1 : (totalQuantity vs : ℚ) ≤ (capacityBySize meta.truckSize : ℚ) *
        (⌈(totalQuantity vs : ℚ) / (capacityBySize meta.truckSize : ℚ)⌉ : ℚ) := by
      rw [mul_comm]
      exact (div_le_iff hcq).mp hdiv
    have h1' : totalQuantity vs ≤ capacityBySize meta.truckSize *
        ⌈(totalQuantity vs : ℚ) / (capacityBySize meta.truckSize : ℚ)⌉ := by
      exact_mod_cast h1
    refine h1'.trans ?_
    rw [derivedTruckQuantity]
    exact mul_le_mul_of_nonneg_left (le_max_right 1 _) hc.le
  · intro q hq1 hq2
    rw [derivedTruckQuantity]
    refine max_le hq1 (Int.ceil_le.mpr ?_)
    rw [div_le_iff hcq]
    have : (totalQuantity vs : ℚ) ≤ (capacityBySize meta.truckSize : ℚ) * (q : ℚ) := by
      exact_mod_cast hq2
    linarith [this]

/-- C7 counterexample: on the empty Load Model the derived truck quantity is
1, whereas `⌈totalQuantity / capacity⌉ = ⌈0 / 200⌉ = 0`, so the derived
count does not equal the plain ceiling. -/
theorem derivedTruckQuantity_empty_cex :
    derivedTruckQuantity TruckSize.medium [] = 1 ∧
    ⌈(totalQuantity [] : ℚ) / (capacityBySize TruckSize.medium : ℚ)⌉ = 0 ∧
    (1 : ℤ) ≠ 0 := by
  have h : ⌈(totalQuantity [] : ℚ) / (capacityBySize TruckSize.medium : ℚ)⌉ = 0 := by
    norm_num [totalQuantity, capacityBySize]
  exact ⟨by rw [derivedTruckQuantity, h]; decide, h, by norm_num⟩

/-- C7 witness: the capacity identity and covering bound at a concrete
250-unit load in medium trucks. -/
theorem getTotalCapacity_auto_least_witness :
    getTotalCapacity ⟨TruckSize.medium, 1, true⟩
        [⟨"c1", "Carrots", 250, EthyleneLevel.low, EthyleneLevel.medium, ⟨0, 2⟩, 21⟩] =
      capacityBySize TruckSize.medium *
        derivedTruckQuantity TruckSize.medium
          [⟨"c1", "Carrots", 250, EthyleneLevel.low, EthyleneLevel.medium, ⟨0, 2⟩, 21⟩] ∧
    totalQuantity
        [⟨"c1", "Carrots", 250, EthyleneLevel.low, EthyleneLevel.medium, ⟨0, 2⟩, 21⟩] ≤
      capacityBySize TruckSize.medium *
        derivedTruckQuantity TruckSize.medium
          [⟨"c1", "Carrots", 250, EthyleneLevel.low, EthyleneLevel.medium, ⟨0, 2⟩, 21⟩] :=
  ⟨(getTotalCapacity_auto_least ⟨TruckSize.medium, 1, true⟩
      [⟨"c1", "Carrots", 250, EthyleneLevel.low, EthyleneLevel.medium, ⟨0, 2⟩, 21⟩] rfl).1,
   (getTotalCapacity_auto_least ⟨TruckSize.medium, 1, true⟩
      [⟨"c1", "Carrots", 250, EthyleneLevel.low, EthyleneLevel.medium, ⟨0, 2⟩, 21⟩] rfl).2.2.1⟩

/-- C10: `updateQuantity` is frame-preserving: items whose id differs from
the target are left completely unchanged in their original relative order,
and when no item carries the target id the Load Model is returned intact. -/
theorem updateQuantity_frame (vs : List Vegetable)
    (h : ∀ v ∈ vs, 1 ≤ v.quantity) (id : String) (change : ℤ) :
    (updateQuantity vs id change).filter (fun v => decide (v.id ≠ id)) =
      vs.filter (fun v => decide (v.id ≠ id)) ∧
    ((∀ v ∈ vs, v.id ≠ id) → updateQuantity vs id change = vs) := by
  have hmap : ∀ v : Vegetable,
      (if v.id = id then { v with quantity := max 0 (v.quantity + change) } else v).id =
        v.id := by
    intro v
    split_ifs <;> rfl
  constructor
  · rw [updateQuantity, List.filter_filter, List.filter_map]
    have hpt : vs.filter ((fun v => decide (v.id ≠ id) && decide (0 < v.quantity)) ∘
        (fun v => if v.id = id then { v with quantity := max 0 (v.quantity + change) }
          else v)) = vs.filter (fun v => decide (v.id ≠ id)) := by
      refine List.filter_congr ?_
      intro v hv
      by_cases hid : v.id = id
      · simp [Function.comp, hmap v, hid]
      · have hq : 0 < v.quantity := by have := h v hv; omega
        simp [Function.comp, if_neg hid, hid, hq]
    rw [hpt]
    refine List.map_congr_left ?_ |>.trans (List.map_id _)
    intro v hv
    have hid : v.id ≠ id := by simpa using (List.mem_filter.mp hv).2
    simp [if_neg hid]
  · intro hnone
    rw [updateQuantity]
    have hmapid : vs.map (fun v =>
        if v.id = id then { v with quantity := max 0 (v.quantity + change) } else v) = vs := by
      refine List.map_congr_left ?_ |>.trans (List.map_id _)
      intro v hv
      simp [if_neg (hnone v hv)]
    rw [hmapid]
    refine List.filter_eq_self.mpr ?_
    intro v hv
    have := h v hv
    simpa using by omega

/-- C10 witness: updating one id leaves the other item untouched, and a
missing id leaves the Load Model unchanged. -/
theorem updateQuantity_frame_witness :
    (updateQuantity
        [⟨"c1", "Carrots", 1, EthyleneLevel.low, EthyleneLevel.medium, ⟨0, 2⟩, 21⟩,
         ⟨"p1", "Potatoes", 4, EthyleneLevel.low, EthyleneLevel.low, ⟨4, 8⟩, 60⟩]
        "c1" (-1)).filter (fun v => decide (v.id ≠ "c1")) =
      [⟨"c1", "Carrots", 1, EthyleneLevel.low, EthyleneLevel.medium, ⟨0, 2⟩, 21⟩,
       ⟨"p1", "Potatoes", 4, EthyleneLevel.low, EthyleneLevel.low, ⟨4, 8⟩, 60⟩].filter
        (fun v => decide (v.id ≠ "c1")) ∧
    updateQuantity
        [⟨"c1", "Carrots", 1, EthyleneLevel.low, EthyleneLevel.medium, ⟨0, 2⟩, 21⟩,
         ⟨"p1", "Potatoes", 4, EthyleneLevel.low, EthyleneLevel.low, ⟨4, 8⟩, 60⟩]
        "zz" 1 =
      [⟨"c1", "Carrots", 1, EthyleneLevel.low, EthyleneLevel.medium, ⟨0, 2⟩, 21⟩,
       ⟨"p1", "Potatoes", 4, EthyleneLevel.low, EthyleneLevel.low, ⟨4, 8⟩, 60⟩] :=
  ⟨(updateQuantity_frame
      [⟨"c1", "Carrots", 1, EthyleneLevel.low, EthyleneLevel.medium, ⟨0, 2⟩, 21⟩,
       ⟨"p1", "Potatoes", 4, EthyleneLevel.low, EthyleneLevel.low, ⟨4, 8⟩, 60⟩]
      (by decide) "c1" (-1)).1,
   (updateQuantity_frame
      [⟨"c1", "Carrots", 1, EthyleneLevel.low, EthyleneLevel.medium, ⟨0, 2⟩, 21⟩,
       ⟨"p1", "Potatoes", 4, EthyleneLevel.low, EthyleneLevel.low, ⟨4, 8⟩, 60⟩]
      (by decide) "zz" 1).2 (by decide)⟩

end ShelfLife
